import Mathlib

/-!
Shallow embedding of `src/tools/jobserver_pool.py`: a GNU Make jobserver
token-pool manager.  The script creates a token store (anonymous pipe,
named FIFO, or Win32 named semaphore), advertises it to a child command
through the `MAKEFLAGS` environment variable, runs the child, optionally
verifies token conservation at teardown, and releases the store.

Process environments are modelled as association lists of string pairs
(`dict(os.environ)` copies the parent environment; a subsequent item
assignment replaces the binding for that key).  Byte channels (pipe or
FIFO buffers) are modelled as lists of characters; the Win32 semaphore
is modelled by its observable counter.  `subprocess.run` is opaque: it
either returns an exit code or raises, and the tokens it leaves in the
store at teardown are a free parameter.
-/

set_option autoImplicit false

namespace JobserverPool

/-- A process environment: an ordered list of (variable, value) bindings,
as produced by `dict(os.environ)`. -/
abbrev Env := List (String × String)

/-- Lookup of a variable in an environment (first binding wins, matching
Python `dict` semantics when keys are unique, as in `os.environ`). -/
def envLookup : Env → String → Option String
  | [], _ => none
  | (k, v) :: rest, key => if k = key then some v else envLookup rest key

/-- Python `env[key] = val` on a dict copy: replaces the binding of `key`
when present, otherwise appends a new binding. -/
def envSet : Env → String → String → Env
  | [], key, val => [(key, val)]
  | (k, v) :: rest, key, val =>
      if k = key then (k, val) :: rest else (k, v) :: envSet rest key val

/-- Embedding of the Win32 `CreateSemaphore` call made by `create_sem`:
records exactly what the code passes in each positional parameter of the
API (`CreateSemaphore(lpSemaphoreAttributes, lInitialCount,
lMaximumCount, lpName)`), together with the environment the function
returns. -/
structure SemCreation where
  lpSemaphoreAttributes : Option Unit
  lInitialCount : Int
  lMaximumCount : Int
  lpName : String
  env : Env
deriving DecidableEq

/-- `create_sem(sem_name, job_count)` (Windows branch).  The Python code
asserts `job_count > 0` (modelled as `none` on failure), calls
`win32event.CreateSemaphore(None, job_count, job_count - 1, sem_name)`,
and sets `MAKEFLAGS` on a copy of the parent environment.  The source
assigns the plain string literal
`" -j\x7bjob_count\x7d --jobserver-auth=" + sem_name` (no `f` string
marker), so the braces and the identifier appear verbatim in the value. -/
def create_sem (parentEnv : Env) (sem_name : String) (job_count : Int) :
    Option SemCreation :=
  if job_count > 0 then
    some { lpSemaphoreAttributes := none
           lInitialCount := job_count
           lMaximumCount := job_count - 1
           lpName := sem_name
           env := envSet parentEnv "MAKEFLAGS"
             (" -j\x7bjob_count\x7d --jobserver-auth=" ++ sem_name) }
  else
    none

/-- Result of `create_pipe`: the two descriptors, the bytes written to the
write end, and the environment handed to the child. -/
structure PipeCreation where
  read_fd : Nat
  write_fd : Nat
  written : List Char
  env : Env
deriving DecidableEq

/-- `create_pipe(job_count)` (POSIX).  `os.pipe()` yields the descriptor
pair (a free parameter here), both marked inheritable; the code asserts
`job_count > 0`, writes `(job_count - 1) * b"x"` to the write end, and
sets `MAKEFLAGS` on a copy of the parent environment using an `f` string
that renders the count and both descriptors in decimal. -/
def create_pipe (parentEnv : Env) (read_fd write_fd : Nat) (job_count : Int) :
    Option PipeCreation :=
  if job_count > 0 then
    some { read_fd := read_fd
           write_fd := write_fd
           written := List.replicate (job_count - 1).toNat 'x'
           env := envSet parentEnv "MAKEFLAGS"
             (" -j" ++ toString job_count
               ++ " --jobserver-fds=" ++ toString read_fd ++ "," ++ toString write_fd
               ++ " --jobserver-auth=" ++ toString read_fd ++ "," ++ toString write_fd) }
  else
    none

/-- Result of `create_fifo`: whether a stale object at the path was
removed first, the opened descriptors, the bytes written, and the
environment handed to the child. -/
structure FifoCreation where
  staleRemoved : Bool
  read_fd : Nat
  write_fd : Nat
  written : List Char
  env : Env
deriving DecidableEq

/-- `create_fifo(path, job_count)` (POSIX).  Removes a pre-existing object
at `path`, creates a fresh FIFO, opens non-blocking read and write
descriptors (free parameters here), asserts `job_count > 0`, writes
`(job_count - 1) * b"x"`, and sets `MAKEFLAGS` on a copy of the parent
environment to `f" -j{...} --jobserver-auth=fifo:" + path` rendering the
count in decimal. -/
def create_fifo (parentEnv : Env) (path : String) (staleExists : Bool)
    (read_fd write_fd : Nat) (job_count : Int) : Option FifoCreation :=
  if job_count > 0 then
    some { staleRemoved := staleExists
           read_fd := read_fd
           write_fd := write_fd
           written := List.replicate (job_count - 1).toNat 'x'
           env := envSet parentEnv "MAKEFLAGS"
             (" -j" ++ toString job_count ++ " --jobserver-auth=fifo:" ++ path) }
  else
    none

/-- What a verification step reported on stderr: nothing, `n` missing
tokens, or `n` extra tokens. -/
inductive CheckReport where
  | ok
  | missing (n : Int)
  | extra (n : Int)
deriving DecidableEq

/-- The non-blocking drain loop of `check_pipe_tokens`: reads one byte at
a time until the channel is empty, so it counts exactly the bytes
currently buffered. -/
def drain_and_count (buf : List Char) : Nat := buf.length

/-- `check_pipe_tokens(read_fd, job_count)` (POSIX).  `buf` is the channel
content at teardown.  Returns what was reported and the exit status the
function returns. -/
def check_pipe_tokens (buf : List Char) (job_count : Int) : CheckReport × Int :=
  if job_count ≤ 1 then (.ok, 0)
  else
    let expected_count := job_count - 1
    let read_count : Int := (drain_and_count buf : Nat)
    if read_count < expected_count then (.missing (expected_count - read_count), 1)
    else if read_count > expected_count then (.extra (read_count - expected_count), 1)
    else (.ok, 0)

/-- `win32event.ReleaseSemaphore(handle, n)`: adds `n` to the semaphore
counter and returns the previous counter value.  The model returns
(new counter, previous counter). -/
def ReleaseSemaphore (count : Nat) (lReleaseCount : Nat) : Nat × Nat :=
  (count + lReleaseCount, count)

/-- `check_sem_count(handle, job_count)` (Windows).  `semCount` is the
semaphore counter at teardown; the code observes it via
`ReleaseSemaphore(handle, 1)`.  Returns what was reported and the exit
status the function returns. -/
def check_sem_count (semCount : Nat) (job_count : Int) : CheckReport × Int :=
  if job_count ≤ 1 then (.ok, 0)
  else
    let expected_count := job_count - 1
    let read_count : Int := (ReleaseSemaphore semCount 1).2
    if read_count < expected_count then (.missing (expected_count - read_count), 1)
    else if read_count > expected_count then (.extra (read_count - expected_count), 1)
    else (.ok, 0)

/-- Outcome of `subprocess.run`: the child exits with a code, or the
launch itself raises (e.g. the command does not exist). -/
inductive LaunchOutcome where
  | exits (code : Int)
  | raises
deriving DecidableEq

/-- Observable outcome of one run of `main` on POSIX: whether a backend
was constructed, the environment the child was run with, whether `main`
propagated an exception, its return value otherwise, whether and with
what result verification ran, and the fate of the FIFO object. -/
structure PosixRun where
  poolCreated : Bool
  childEnv : Env
  raised : Bool
  exitCode : Int
  checkInvoked : Bool
  report : CheckReport
  fifoCreated : Bool
  fifoRemoved : Bool
deriving DecidableEq

/-- The POSIX body of `main` after argument parsing.  `job_count ≤ 0`
disables the feature: the child runs with the inherited environment and
its code is returned.  Otherwise the pipe or FIFO backend is created and
the child runs inside a `try` block whose `finally` closes the
descriptors and removes the FIFO if `delete_fifo` was set; the source
sets `delete_fifo = args.fifo` only after `subprocess.run` returns, so a
raising launch leaves it empty.  Verification runs only when the child
exited 0 and `--check` was given; its status then becomes the exit
code.  `teardownBuf` is the channel content when verification drains. -/
def main_posix (parentEnv : Env) (use_pipe : Bool) (fifo_path : String)
    (staleExists : Bool) (read_fd write_fd : Nat) (job_count : Int)
    (check : Bool) (child : LaunchOutcome) (teardownBuf : List Char) :
    Option PosixRun :=
  if job_count ≤ 0 then
    match child with
    | .exits code =>
        some { poolCreated := false, childEnv := parentEnv, raised := false
               exitCode := code, checkInvoked := false, report := .ok
               fifoCreated := false, fifoRemoved := false }
    | .raises =>
        some { poolCreated := false, childEnv := parentEnv, raised := true
               exitCode := 0, checkInvoked := false, report := .ok
               fifoCreated := false, fifoRemoved := false }
  else if use_pipe then
    (create_pipe parentEnv read_fd write_fd job_count).map fun pc =>
      match child with
      | .raises =>
          { poolCreated := true, childEnv := pc.env, raised := true
            exitCode := 0, checkInvoked := false, report := .ok
            fifoCreated := false, fifoRemoved := false }
      | .exits code =>
          if code = 0 ∧ check = true then
            let result := check_pipe_tokens teardownBuf job_count
            { poolCreated := true, childEnv := pc.env, raised := false
              exitCode := result.2, checkInvoked := true, report := result.1
              fifoCreated := false, fifoRemoved := false }
          else
            { poolCreated := true, childEnv := pc.env, raised := false
              exitCode := code, checkInvoked := false, report := .ok
              fifoCreated := false, fifoRemoved := false }
  else
    (create_fifo parentEnv fifo_path staleExists read_fd write_fd job_count).map
      fun fc =>
        match child with
        | .raises =>
            { poolCreated := true, childEnv := fc.env, raised := true
              exitCode := 0, checkInvoked := false, report := .ok
              fifoCreated := true, fifoRemoved := false }
        | .exits code =>
            if code = 0 ∧ check = true then
              let result := check_pipe_tokens teardownBuf job_count
              { poolCreated := true, childEnv := fc.env, raised := false
                exitCode := result.2, checkInvoked := true, report := result.1
                fifoCreated := true, fifoRemoved := true }
            else
              { poolCreated := true, childEnv := fc.env, raised := false
                exitCode := code, checkInvoked := false, report := .ok
                fifoCreated := true, fifoRemoved := true }

/-- Observable outcome of one run of `main` on Windows. -/
structure WinRun where
  poolCreated : Bool
  childEnv : Env
  raised : Bool
  exitCode : Int
  checkInvoked : Bool
  report : CheckReport
  handleClosed : Bool
deriving DecidableEq

/-- The Windows body of `main` after argument parsing: `job_count ≤ 0`
disables the feature; otherwise `create_sem` runs, the child runs inside
a `try` block whose `finally` always closes the semaphore handle, and
verification runs only when the child exited 0 and `--check` was given.
`teardownCount` is the semaphore counter when verification samples it. -/
def main_windows (parentEnv : Env) (sem_name : String) (job_count : Int)
    (check : Bool) (child : LaunchOutcome) (teardownCount : Nat) :
    Option WinRun :=
  if job_count ≤ 0 then
    match child with
    | .exits code =>
        some { poolCreated := false, childEnv := parentEnv, raised := false
               exitCode := code, checkInvoked := false, report := .ok
               handleClosed := false }
    | .raises =>
        some { poolCreated := false, childEnv := parentEnv, raised := true
               exitCode := 0, checkInvoked := false, report := .ok
               handleClosed := false }
  else
    (create_sem parentEnv sem_name job_count).map fun sc =>
      match child with
      | .raises =>
          { poolCreated := true, childEnv := sc.env, raised := true
            exitCode := 0, checkInvoked := false, report := .ok
            handleClosed := true }
      | .exits code =>
          if code = 0 ∧ check = true then
            let result := check_sem_count teardownCount job_count
            { poolCreated := true, childEnv := sc.env, raised := false
              exitCode := result.2, checkInvoked := true, report := result.1
              handleClosed := true }
          else
            { poolCreated := true, childEnv := sc.env, raised := false
              exitCode := code, checkInvoked := false, report := .ok
              handleClosed := true }

/-- `leadsWith l p` says the pattern `p` occurs at the front of `l`. -/
def leadsWith : List Char → List Char → Bool
  | _, [] => true
  | [], _ :: _ => false
  | c :: cs, d :: ds => c = d && leadsWith cs ds

/-- Substring test over character lists (used to state claims about
protocol strings). -/
def hasSub : List Char → List Char → Bool
  | _, [] => true
  | [], _ :: _ => false
  | c :: cs, needle => leadsWith (c :: cs) needle || hasSub cs needle

theorem envLookup_envSet_self (e : Env) (k v : String) :
    envLookup (envSet e k v) k = some v := by
  induction e with
  | nil => simp [envSet, envLookup]
  | cons p rest ih =>
      obtain ⟨k0, v0⟩ := p
      by_cases h : k0 = k <;> simp [envSet, envLookup, h, ih]

theorem envLookup_envSet_of_ne (e : Env) (k v k2 : String) (h : k2 ≠ k) :
    envLookup (envSet e k v) k2 = envLookup e k2 := by
  induction e with
  | nil => simp [envSet, envLookup, Ne.symm h]
  | cons p rest ih =>
      obtain ⟨k0, v0⟩ := p
      by_cases h0 : k0 = k
      · subst h0
        simp [envSet, envLookup, Ne.symm h]
      · simp [envSet, envLookup, h0, ih]

theorem check_pipe_tokens_code (buf : List Char) (N : Int) :
    (check_pipe_tokens buf N).2
      = if (check_pipe_tokens buf N).1 = .ok then 0 else 1 := by
  unfold check_pipe_tokens
  by_cases h1 : N ≤ 1
  · simp [h1]
  · by_cases h2 : (drain_and_count buf : Int) < N - 1
    · simp [h1, h2]
    · by_cases h3 : (drain_and_count buf : Int) > N - 1
      · simp [h1, h2, h3]
      · simp [h1, h2, h3]

theorem check_sem_count_code (semCount : Nat) (N : Int) :
    (check_sem_count semCount N).2
      = if (check_sem_count semCount N).1 = .ok then 0 else 1 := by
  unfold check_sem_count
  by_cases h1 : N ≤ 1
  · simp [h1]
  · by_cases h2 : ((ReleaseSemaphore semCount 1).2 : Int) < N - 1
    · simp [h1, h2]
    · by_cases h3 : ((ReleaseSemaphore semCount 1).2 : Int) > N - 1
      · simp [h1, h2, h3]
      · simp [h1, h2, h3]

/-- Claim C1: the claim says the `MAKEFLAGS` value returned by
`create_sem` contains the literal job count as `-j<N>`.  The code builds
it from a plain string literal lacking the `f` marker, so at capacity 4
the value is the verbatim text `" -j\x7bjob_count\x7d --jobserver-auth=..."`
and the substring `-j4` never occurs: the code contradicts both the spec
and the pattern used by the two sibling backends. -/
theorem create_sem_makeflags_missing_fstring :
    ((create_sem [] "jobserver_tokens" 4).map fun sc => envLookup sc.env "MAKEFLAGS")
      = some (some " -j\x7bjob_count\x7d --jobserver-auth=jobserver_tokens")
    ∧ hasSub " -j\x7bjob_count\x7d --jobserver-auth=jobserver_tokens".data "-j4".data
      = false := by
  decide

/-- Claim C2: the claim (and the spec) say the initial-count argument of
`CreateSemaphore` receives `N-1` and the maximum-count argument receives
`N`.  The code passes them the other way round: at capacity 4 the
initial-count position receives 4 and the maximum-count position
receives 3 (an invalid combination for the Win32 API, since the initial
count may not exceed the maximum). -/
theorem create_sem_swapped_counts :
    ((create_sem [] "jobserver_tokens" 4).map
        fun sc => (sc.lInitialCount, sc.lMaximumCount))
      = some (4, 3)
    ∧ ((create_sem [] "jobserver_tokens" 4).map
        fun sc => (sc.lInitialCount, sc.lMaximumCount))
      ≠ some (3, 4) := by
  decide

/-- Claim C3: the claim (and the spec) say the FIFO object is removed on
every exit path of `main`, including when launching the child raises.
The code sets `delete_fifo = args.fifo` only after `subprocess.run`
returns, so when the launch raises the `finally` block sees an empty
`delete_fifo` and the FIFO created by this invocation is left on disk. -/
theorem fifo_leaked_when_launch_raises :
    ((main_posix [] false "/tmp/jobserver_tokens" false 3 4 2 false .raises []).map
        fun r => (r.fifoCreated, r.raised, r.fifoRemoved))
      = some (true, true, false) := by
  decide

/-- Claim C4: for every capacity N > 1, immediately after `create_pipe`
or `create_fifo` returns, the backing store holds exactly N-1 tokens
(`(N-1) * b"x"` was written and nothing else), so a drain with no
intervening child activity counts exactly N-1. -/
theorem tokens_after_creation (parentEnv : Env) (path : String)
    (staleExists : Bool) (read_fd write_fd : Nat) (N : Int) (hN : 1 < N) :
    (create_pipe parentEnv read_fd write_fd N).map PipeCreation.written
      = some (List.replicate (N - 1).toNat 'x')
    ∧ (create_fifo parentEnv path staleExists read_fd write_fd N).map
        FifoCreation.written
      = some (List.replicate (N - 1).toNat 'x')
    ∧ ((create_pipe parentEnv read_fd write_fd N).map
        fun pc => (drain_and_count pc.written : Int)) = some (N - 1)
    ∧ ((create_fifo parentEnv path staleExists read_fd write_fd N).map
        fun fc => (drain_and_count fc.written : Int)) = some (N - 1) := by
  have h0 : N > 0 := by omega
  refine ⟨?_, ?_, ?_, ?_⟩ <;>
    simp [create_pipe, create_fifo, h0, drain_and_count] <;> omega

/-- Witness for C4 at capacity 4. -/
theorem tokens_after_creation_witness :
    (1 : Int) < 4
    ∧ ((create_pipe [] 3 4 4).map PipeCreation.written
        = some (List.replicate ((4 : Int) - 1).toNat 'x')
      ∧ (create_fifo [] "/tmp/jobserver_tokens" false 3 4 4).map
          FifoCreation.written
        = some (List.replicate ((4 : Int) - 1).toNat 'x')
      ∧ ((create_pipe [] 3 4 4).map
          fun pc => (drain_and_count pc.written : Int)) = some (4 - 1)
      ∧ ((create_fifo [] "/tmp/jobserver_tokens" false 3 4 4).map
          fun fc => (drain_and_count fc.written : Int)) = some (4 - 1)) :=
  ⟨by decide, tokens_after_creation [] "/tmp/jobserver_tokens" false 3 4 4 (by decide)⟩

/-- Claim C8: at capacity exactly 1, both verification routines return
success unconditionally, before draining or inspecting the token store:
the result is independent of the channel content and of the semaphore
counter. -/
theorem capacity_one_check_noop (buf : List Char) (semCount : Nat) :
    check_pipe_tokens buf 1 = (.ok, 0) ∧ check_sem_count semCount 1 = (.ok, 0) := by
  exact ⟨rfl, rfl⟩

theorem string_append_assoc (a b c : String) : a ++ b ++ c = a ++ (b ++ c) :=
  String.ext (by simp [String.data_append, List.append_assoc])

/-- Claim C5: for every run of `main` (POSIX and Windows alike) in which
the child command exits, the process exit code equals the child's exit
code, except that when verification found a discrepancy — which can only
happen when `--check` was given and the child exited 0 — the exit code is
non-zero; in particular a non-zero child exit skips verification and is
returned unchanged. -/
theorem main_exit_code_policy (parentEnv : Env) (use_pipe : Bool)
    (fifo_path sem_name : String) (staleExists : Bool) (read_fd write_fd : Nat)
    (job_count : Int) (check : Bool) (code : Int) (teardownBuf : List Char)
    (teardownCount : Nat) :
    (∀ r, main_posix parentEnv use_pipe fifo_path staleExists read_fd write_fd
        job_count check (.exits code) teardownBuf = some r →
      (r.report = .ok → r.exitCode = code)
      ∧ (r.report ≠ .ok → r.exitCode ≠ 0 ∧ code = 0 ∧ check = true)
      ∧ (code ≠ 0 → r.checkInvoked = false ∧ r.exitCode = code))
    ∧ (∀ w, main_windows parentEnv sem_name job_count check (.exits code)
        teardownCount = some w →
      (w.report = .ok → w.exitCode = code)
      ∧ (w.report ≠ .ok → w.exitCode ≠ 0 ∧ code = 0 ∧ check = true)
      ∧ (code ≠ 0 → w.checkInvoked = false ∧ w.exitCode = code)) := by
  constructor
  · intro r hr
    by_cases hjc : job_count ≤ 0
    · simp [main_posix, hjc] at hr
      subst hr
      simp
    · have h0 : (0 : Int) < job_count := by omega
      cases hup : use_pipe <;>
        simp [main_posix, hjc, hup, create_pipe, create_fifo, h0] at hr <;>
        split at hr <;>
        rename_i hcond <;>
        subst hr <;>
        simp_all [check_pipe_tokens_code]
  · intro w hw
    by_cases hjc : job_count ≤ 0
    · simp [main_windows, hjc] at hw
      subst hw
      simp
    · have h0 : (0 : Int) < job_count := by omega
      simp [main_windows, hjc, create_sem, h0] at hw
      split at hw <;>
        rename_i hcond <;>
        subst hw <;>
        simp_all [check_sem_count_code]

/-- Witness for C5: POSIX pipe backend, capacity 4, --check, child exits
0, only 2 of the 3 expected tokens drained at teardown. -/
theorem main_exit_code_policy_witness :
    main_posix [] true "fp" false 3 4 4 true (.exits 0) ['x', 'x']
      = some { poolCreated := true
               childEnv := [("MAKEFLAGS",
                 " -j4 --jobserver-fds=3,4 --jobserver-auth=3,4")]
               raised := false, exitCode := 1, checkInvoked := true
               report := .missing 1, fifoCreated := false, fifoRemoved := false }
    ∧ ((CheckReport.missing 1 = .ok → (1 : Int) = 0)
      ∧ (CheckReport.missing 1 ≠ .ok → (1 : Int) ≠ 0 ∧ (0 : Int) = 0 ∧ true = true)
      ∧ ((0 : Int) ≠ 0 → true = false ∧ (1 : Int) = 0)) :=
  ⟨by decide,
    (main_exit_code_policy [] true "fp" "sn" false 3 4 4 true 0 ['x', 'x'] 0).1
      { poolCreated := true
        childEnv := [("MAKEFLAGS", " -j4 --jobserver-fds=3,4 --jobserver-auth=3,4")]
        raised := false, exitCode := 1, checkInvoked := true
        report := .missing 1, fifoCreated := false, fifoRemoved := false }
      (by decide)⟩

/-- Claim C6: with a requested capacity ≤ 0 the feature is disabled on
both platforms: no backend is constructed, the child runs with the
parent environment unchanged, and the child's exit code is returned. -/
theorem disabled_mode_passthrough (parentEnv : Env) (use_pipe : Bool)
    (fifo_path sem_name : String) (staleExists : Bool) (read_fd write_fd : Nat)
    (job_count : Int) (check : Bool) (code : Int) (teardownBuf : List Char)
    (teardownCount : Nat) (hjc : job_count ≤ 0) :
    main_posix parentEnv use_pipe fifo_path staleExists read_fd write_fd
        job_count check (.exits code) teardownBuf
      = some { poolCreated := false, childEnv := parentEnv, raised := false
               exitCode := code, checkInvoked := false, report := .ok
               fifoCreated := false, fifoRemoved := false }
    ∧ main_windows parentEnv sem_name job_count check (.exits code) teardownCount
      = some { poolCreated := false, childEnv := parentEnv, raised := false
               exitCode := code, checkInvoked := false, report := .ok
               handleClosed := false } := by
  constructor <;> simp [main_posix, main_windows, hjc]

/-- Witness for C6 at capacity 0 with a non-empty parent environment. -/
theorem disabled_mode_passthrough_witness :
    (0 : Int) ≤ 0
    ∧ (main_posix [("PATH", "/bin")] false "fp" false 3 4 0 true (.exits 7) []
        = some { poolCreated := false, childEnv := [("PATH", "/bin")]
                 raised := false, exitCode := 7, checkInvoked := false
                 report := .ok, fifoCreated := false, fifoRemoved := false }
      ∧ main_windows [("PATH", "/bin")] "sn" 0 true (.exits 7) 0
        = some { poolCreated := false, childEnv := [("PATH", "/bin")]
                 raised := false, exitCode := 7, checkInvoked := false
                 report := .ok, handleClosed := false }) :=
  ⟨by decide,
    disabled_mode_passthrough [("PATH", "/bin")] false "fp" "sn" false 3 4 0
      true 7 [] 0 (by decide)⟩

/-- Claim C7: for capacity N > 1 both verification routines compute
`expected = N - 1` and classify the drained count: fewer drains report
exactly the shortfall as missing and return 1; more drains report
exactly the excess as extra and return 1; an exact match reports nothing
and returns 0. -/
theorem verification_classification (buf : List Char) (semCount : Nat)
    (N : Int) (hN : 1 < N) :
    (((buf.length : Int) < N - 1 →
        check_pipe_tokens buf N = (.missing (N - 1 - (buf.length : Int)), 1))
      ∧ ((buf.length : Int) > N - 1 →
        check_pipe_tokens buf N = (.extra ((buf.length : Int) - (N - 1)), 1))
      ∧ ((buf.length : Int) = N - 1 → check_pipe_tokens buf N = (.ok, 0)))
    ∧ (((semCount : Int) < N - 1 →
        check_sem_count semCount N = (.missing (N - 1 - (semCount : Int)), 1))
      ∧ ((semCount : Int) > N - 1 →
        check_sem_count semCount N = (.extra ((semCount : Int) - (N - 1)), 1))
      ∧ ((semCount : Int) = N - 1 → check_sem_count semCount N = (.ok, 0))) := by
  have h1 : ¬ N ≤ 1 := by omega
  refine ⟨⟨?_, ?_, ?_⟩, ?_, ?_, ?_⟩ <;> intro h
  · simp [check_pipe_tokens, drain_and_count, h1, h]
  · have h2 : ¬ ((buf.length : Int) < N - 1) := by omega
    simp [check_pipe_tokens, drain_and_count, h1, h2, h]
  · have h2 : ¬ ((buf.length : Int) < N - 1) := by omega
    have h3 : ¬ ((buf.length : Int) > N - 1) := by omega
    simp [check_pipe_tokens, drain_and_count, h1, h2, h3, h]
  · simp [check_sem_count, ReleaseSemaphore, h1, h]
  · have h2 : ¬ ((semCount : Int) < N - 1) := by omega
    simp [check_sem_count, ReleaseSemaphore, h1, h2, h]
  · have h2 : ¬ ((semCount : Int) < N - 1) := by omega
    have h3 : ¬ ((semCount : Int) > N - 1) := by omega
    simp [check_sem_count, ReleaseSemaphore, h1, h2, h3, h]

/-- Witness for C7 at capacity 3: one drained byte is one missing token
for the pipe check; a semaphore count of 5 is three extra tokens. -/
theorem verification_classification_witness :
    (1 : Int) < 3
    ∧ ((((['x'].length : Int) < 3 - 1 →
          check_pipe_tokens ['x'] 3 = (.missing (3 - 1 - (['x'].length : Int)), 1))
        ∧ ((['x'].length : Int) > 3 - 1 →
          check_pipe_tokens ['x'] 3 = (.extra ((['x'].length : Int) - (3 - 1)), 1))
        ∧ ((['x'].length : Int) = 3 - 1 → check_pipe_tokens ['x'] 3 = (.ok, 0)))
      ∧ ((((5 : Nat) : Int) < 3 - 1 →
          check_sem_count 5 3 = (.missing (3 - 1 - ((5 : Nat) : Int)), 1))
        ∧ (((5 : Nat) : Int) > 3 - 1 →
          check_sem_count 5 3 = (.extra (((5 : Nat) : Int) - (3 - 1)), 1))
        ∧ (((5 : Nat) : Int) = 3 - 1 → check_sem_count 5 3 = (.ok, 0)))) :=
  ⟨by decide, verification_classification ['x'] 5 3 (by decide)⟩

/-- Claim C9: every backend's create operation returns the parent
environment with exactly one key changed: `MAKEFLAGS` is bound to the
freshly built protocol string (replacing any previous value, not
appending to it), and every other variable keeps its parent value. -/
theorem env_single_key_update (parentEnv : Env) (path sem_name : String)
    (staleExists : Bool) (read_fd write_fd : Nat) (N : Int) (hN : 0 < N) :
    ∃ pc fc sc,
      create_pipe parentEnv read_fd write_fd N = some pc
      ∧ create_fifo parentEnv path staleExists read_fd write_fd N = some fc
      ∧ create_sem parentEnv sem_name N = some sc
      ∧ envLookup pc.env "MAKEFLAGS"
        = some (" -j" ++ toString N
            ++ " --jobserver-fds=" ++ toString read_fd ++ "," ++ toString write_fd
            ++ " --jobserver-auth=" ++ toString read_fd ++ "," ++ toString write_fd)
      ∧ envLookup fc.env "MAKEFLAGS"
        = some (" -j" ++ toString N ++ " --jobserver-auth=fifo:" ++ path)
      ∧ envLookup sc.env "MAKEFLAGS"
        = some (" -j\x7bjob_count\x7d --jobserver-auth=" ++ sem_name)
      ∧ ∀ k, k ≠ "MAKEFLAGS" →
          envLookup pc.env k = envLookup parentEnv k
          ∧ envLookup fc.env k = envLookup parentEnv k
          ∧ envLookup sc.env k = envLookup parentEnv k := by
  have h0 : N > 0 := hN
  refine ⟨⟨read_fd, write_fd, List.replicate (N - 1).toNat 'x',
            envSet parentEnv "MAKEFLAGS"
              (" -j" ++ toString N
                ++ " --jobserver-fds=" ++ toString read_fd ++ "," ++ toString write_fd
                ++ " --jobserver-auth=" ++ toString read_fd ++ "," ++ toString write_fd)⟩,
          ⟨staleExists, read_fd, write_fd, List.replicate (N - 1).toNat 'x',
            envSet parentEnv "MAKEFLAGS"
              (" -j" ++ toString N ++ " --jobserver-auth=fifo:" ++ path)⟩,
          ⟨none, N, N - 1, sem_name,
            envSet parentEnv "MAKEFLAGS"
              (" -j\x7bjob_count\x7d --jobserver-auth=" ++ sem_name)⟩,
          ?_, ?_, ?_, ?_, ?_, ?_, ?_⟩
  · simp [create_pipe, h0]
  · simp [create_fifo, h0]
  · simp [create_sem, h0]
  · exact envLookup_envSet_self parentEnv "MAKEFLAGS" _
  · exact envLookup_envSet_self parentEnv "MAKEFLAGS" _
  · exact envLookup_envSet_self parentEnv "MAKEFLAGS" _
  · intro k hk
    exact ⟨envLookup_envSet_of_ne parentEnv "MAKEFLAGS" _ k hk,
      envLookup_envSet_of_ne parentEnv "MAKEFLAGS" _ k hk,
      envLookup_envSet_of_ne parentEnv "MAKEFLAGS" _ k hk⟩

/-- Witness for C9 at capacity 2 over a parent environment that already
binds MAKEFLAGS (showing replacement) and PATH (showing preservation). -/
theorem env_single_key_update_witness :
    (0 : Int) < 2
    ∧ ∃ pc fc sc,
        create_pipe [("PATH", "/bin"), ("MAKEFLAGS", "old")] 3 4 2 = some pc
        ∧ create_fifo [("PATH", "/bin"), ("MAKEFLAGS", "old")] "fp" false 3 4 2
          = some fc
        ∧ create_sem [("PATH", "/bin"), ("MAKEFLAGS", "old")] "sn" 2 = some sc
        ∧ envLookup pc.env "MAKEFLAGS"
          = some (" -j" ++ toString (2 : Int)
              ++ " --jobserver-fds=" ++ toString (3 : Nat) ++ "," ++ toString (4 : Nat)
              ++ " --jobserver-auth=" ++ toString (3 : Nat) ++ "," ++ toString (4 : Nat))
        ∧ envLookup fc.env "MAKEFLAGS"
          = some (" -j" ++ toString (2 : Int) ++ " --jobserver-auth=fifo:" ++ "fp")
        ∧ envLookup sc.env "MAKEFLAGS"
          = some (" -j\x7bjob_count\x7d --jobserver-auth=" ++ "sn")
        ∧ ∀ k, k ≠ "MAKEFLAGS" →
            envLookup pc.env k
              = envLookup [("PATH", "/bin"), ("MAKEFLAGS", "old")] k
            ∧ envLookup fc.env k
              = envLookup [("PATH", "/bin"), ("MAKEFLAGS", "old")] k
            ∧ envLookup sc.env k
              = envLookup [("PATH", "/bin"), ("MAKEFLAGS", "old")] k :=
  ⟨by decide,
    env_single_key_update [("PATH", "/bin"), ("MAKEFLAGS", "old")] "fp" "sn"
      false 3 4 2 (by decide)⟩

/-- Claim C10: the pipe backend's MAKEFLAGS value advertises one and the
same descriptor pair twice, once under the legacy `--jobserver-fds` flag
and once under the modern `--jobserver-auth` flag. -/
theorem pipe_advertises_fds_twice (parentEnv : Env) (read_fd write_fd : Nat)
    (N : Int) (hN : 0 < N) :
    ∃ pc s,
      create_pipe parentEnv read_fd write_fd N = some pc
      ∧ s = toString read_fd ++ "," ++ toString write_fd
      ∧ envLookup pc.env "MAKEFLAGS"
        = some (" -j" ++ toString N ++ " --jobserver-fds=" ++ s
            ++ " --jobserver-auth=" ++ s) := by
  have h0 : N > 0 := hN
  refine ⟨⟨read_fd, write_fd, List.replicate (N - 1).toNat 'x',
            envSet parentEnv "MAKEFLAGS"
              (" -j" ++ toString N
                ++ " --jobserver-fds=" ++ toString read_fd ++ "," ++ toString write_fd
                ++ " --jobserver-auth=" ++ toString read_fd ++ "," ++ toString write_fd)⟩,
          toString read_fd ++ "," ++ toString write_fd, ?_, rfl, ?_⟩
  · simp [create_pipe, h0]
  · rw [envLookup_envSet_self parentEnv "MAKEFLAGS" _]
    simp [string_append_assoc]

/-- Witness for C10 at capacity 2 with descriptors 3 and 4. -/
theorem pipe_advertises_fds_twice_witness :
    (0 : Int) < 2
    ∧ ∃ pc s,
        create_pipe [] 3 4 2 = some pc
        ∧ s = toString (3 : Nat) ++ "," ++ toString (4 : Nat)
        ∧ envLookup pc.env "MAKEFLAGS"
          = some (" -j" ++ toString (2 : Int) ++ " --jobserver-fds=" ++ s
              ++ " --jobserver-auth=" ++ s) :=
  ⟨by decide, pipe_advertises_fds_twice [] 3 4 2 (by decide)⟩

end JobserverPool
